import Mathlib

/-!
Verification of the session-identity and chat-history subsystem of the
support-chat application.

The development shallowly embeds the database-backed operations of the
repository:

* `front-end/app/lib/db/chat.server.ts` (the uuidv7/cursor revision):
  `createChatSession`, `getChatSession`, `getChatMessages` (keyset
  pagination), `createMessage`, `updateChatSessionTitle`,
  `updateChatSessionTimestamp`;
* the session module (`requireSession`, `getOrCreateWorkOSUser`,
  `getUserBySessionId`, `getUserByWorkOSId`,
  `migrateAnonymousUserToAuthenticated`);
* the chat route action (`action` of `chat.$sessionId.tsx`, the
  `Promise.allSettled` revision), with the two upstream AI calls
  abstracted to their outcomes (`TurnUpstream`), and the backward
  infinite-scroll protocol of the `ChatSession` component (`scrollAll`).

The database is modelled as an in-memory state (`DBState`): each table is
a list of rows in insertion order, uuidv7 identifiers are modelled by a
monotone counter `nextId` (uuidv7 values are time-ordered, so `<` on ids
matches creation order), and `new Date().toISOString()` by a monotone
clock `now` that advances at every write.  JavaScript `null`/`undefined`
fields are `Option`s; JS falsiness of strings (`!s` true for `""` and
`null`) is modelled explicitly where the source relies on it.
-/

namespace ChatApp

/-- Message role, the `Role` enum of the Prisma schema. -/
inductive Role
  | user
  | assistant
deriving DecidableEq, Repr

/-- A row of the `messages` table. -/
structure Message where
  id : Nat
  chat_session_id : Nat
  content : String
  role : Role
  reasoning : Option String
  context_used : Option String
  created_at : Nat
deriving DecidableEq, Repr

/-- A row of the `chat_sessions` table. -/
structure ChatSession where
  id : Nat
  user_id : Nat
  title : Option String
  updated_at : Nat
deriving DecidableEq, Repr

/-- A row of the `users` table. -/
structure User where
  id : Nat
  session_id : Option Nat
  workos_id : Option String
  email : Option String
  is_anonymous : Bool
  updated_at : Nat
deriving DecidableEq, Repr

/-- The database state: the three tables (rows kept in insertion order),
plus the id counter modelling uuidv7/`createId` generation and the clock
modelling `new Date()`. -/
structure DBState where
  users : List User
  chat_sessions : List ChatSession
  messages : List Message
  nextId : Nat
  now : Nat
deriving DecidableEq, Repr

/-! ### chat.server.ts -/

/-- JS string falsiness (`!s`): true for `null`/`undefined` and for `""`. -/
def titleFalsy : Option String → Bool
  | none => true
  | some t => t == ""

/-- `createChatSession(userId, title?)`: inserts a chat session with a fresh
uuidv7 id, `updated_at` now, and `title: title || null`. -/
def createChatSession (s : DBState) (userId : Nat) (title : Option String) :
    DBState × ChatSession :=
  let cs : ChatSession :=
    { id := s.nextId
      user_id := userId
      title := if titleFalsy title then none else title
      updated_at := s.now }
  ({ s with chat_sessions := s.chat_sessions ++ [cs]
            nextId := s.nextId + 1
            now := s.now + 1 }, cs)

/-- `getChatSession(sessionId, userId)`: first row with matching id owned by
the given user (`executeTakeFirst`). -/
def getChatSession (s : DBState) (sessionId userId : Nat) : Option ChatSession :=
  s.chat_sessions.find? (fun cs => cs.id == sessionId && cs.user_id == userId)

/-- The `where("chat_session_id", "=", chatSessionId)` clause. -/
def sessionMessages (msgs : List Message) (chatSessionId : Nat) : List Message :=
  msgs.filter (fun m => m.chat_session_id == chatSessionId)

/-- The optional `where("id", "<", beforeMessageId)` clause. -/
def cursorFilter (l : List Message) (beforeMessageId : Option Nat) : List Message :=
  match beforeMessageId with
  | some c => l.filter (fun m => m.id < c)
  | none => l

/-- `getChatMessages(chatSessionId, beforeMessageId?, limit)`: select the
session's messages, optionally below the cursor, order by `id` descending,
take `limit` rows, and reverse into ascending order for the caller. -/
def getChatMessages (msgs : List Message) (chatSessionId : Nat)
    (beforeMessageId : Option Nat) (limit : Nat) : List Message :=
  let filtered := cursorFilter (sessionMessages msgs chatSessionId) beforeMessageId
  let sorted := filtered.insertionSort (fun a b => b.id ≤ a.id)
  (sorted.take limit).reverse

/-- `createMessage(data)`: inserts a message with a fresh uuidv7 id; the
source stores `data.reasoning || null` and `data.contextUsed || null`. -/
def createMessage (s : DBState) (chatSessionId : Nat) (content : String)
    (role : Role) (reasoning contextUsed : Option String) : DBState × Message :=
  let m : Message :=
    { id := s.nextId
      chat_session_id := chatSessionId
      content := content
      role := role
      reasoning := if titleFalsy reasoning then none else reasoning
      context_used := if titleFalsy contextUsed then none else contextUsed
      created_at := s.now }
  ({ s with messages := s.messages ++ [m]
            nextId := s.nextId + 1
            now := s.now + 1 }, m)

/-- `updateChatSessionTitle(sessionId, title)`: sets `title` and `updated_at`
on every row whose id matches; there is no guard on the previous title. -/
def updateChatSessionTitle (s : DBState) (sessionId : Nat) (title : String) :
    DBState :=
  { s with chat_sessions := s.chat_sessions.map fun cs =>
      if cs.id = sessionId then { cs with title := some title, updated_at := s.now } else cs
           now := s.now + 1 }

/-- `updateChatSessionTimestamp(sessionId)`: sets `updated_at` on every row
whose id matches. -/
def updateChatSessionTimestamp (s : DBState) (sessionId : Nat) : DBState :=
  { s with chat_sessions := s.chat_sessions.map fun cs =>
      if cs.id = sessionId then { cs with updated_at := s.now } else cs
           now := s.now + 1 }

/-! ### auth.server.ts (the revision with migration support) -/

/-- `getUserBySessionId(sessionId)`. -/
def getUserBySessionId (s : DBState) (sessionId : Nat) : Option User :=
  s.users.find? (fun u => u.session_id == some sessionId)

/-- `getUserByWorkOSId(workosId)`: first user whose `workos_id` matches. -/
def getUserByWorkOSId (s : DBState) (workosId : String) : Option User :=
  s.users.find? (fun u => u.workos_id == some workosId)

/-- `getOrCreateWorkOSUser(workosUserId, email)`: look up by `workos_id`;
insert a fresh non-anonymous user only when the lookup fails. -/
def getOrCreateWorkOSUser (s : DBState) (workosUserId email : String) :
    DBState × User :=
  match getUserByWorkOSId s workosUserId with
  | some user => (s, user)
  | none =>
    let user : User :=
      { id := s.nextId
        session_id := none
        workos_id := some workosUserId
        email := some email
        is_anonymous := false
        updated_at := s.now }
    ({ s with users := s.users ++ [user]
              nextId := s.nextId + 1
              now := s.now + 1 }, user)

/-- The session cookie contents (`session.get("sessionId")` /
`session.get("userId")`). -/
structure Cookie where
  sessionId : Option Nat
  userId : Option Nat
deriving DecidableEq, Repr

/-- What `requireSession` returns to its caller. -/
structure SessionResult where
  cookie : Cookie
  sessionId : Option Nat
  userId : Nat
  user : User
  isAuthenticated : Bool
deriving DecidableEq, Repr

/-- The fall-through tail of `requireSession`: generate a fresh session
token, insert a fresh anonymous user, and write both into the cookie. -/
def createNewAnonymousSession (s : DBState) : DBState × SessionResult :=
  let newSessionId := s.nextId
  let user : User :=
    { id := s.nextId + 1
      session_id := some newSessionId
      workos_id := none
      email := none
      is_anonymous := true
      updated_at := s.now }
  let s' := { s with users := s.users ++ [user]
                     nextId := s.nextId + 2
                     now := s.now + 1 }
  (s', { cookie := { sessionId := some newSessionId, userId := some user.id }
         sessionId := some newSessionId
         userId := user.id
         user := user
         isAuthenticated := false })

/-- `requireSession(request)`: authenticated branch (`userId && !sessionId`,
lookup by id among non-anonymous users), then anonymous branch
(`sessionId && userId`, lookup by session token), and otherwise — including
when either lookup finds no row — fall through to creating a fresh
anonymous session. -/
def requireSession (s : DBState) (cookie : Cookie) : DBState × SessionResult :=
  match cookie.userId, cookie.sessionId with
  | some u, none =>
    match s.users.find? (fun v => v.id == u && v.is_anonymous == false) with
    | some user =>
      (s, { cookie := cookie, sessionId := none, userId := u
            user := user, isAuthenticated := true })
    | none => createNewAnonymousSession s
  | some u, some t =>
    match getUserBySessionId s t with
    | some user =>
      (s, { cookie := cookie, sessionId := some t, userId := u
            user := user, isAuthenticated := false })
    | none => createNewAnonymousSession s
  | none, _ => createNewAnonymousSession s

/-- `migrateAnonymousUserToAuthenticated(anonymousUserId, authenticatedUserId)`:
one transaction that reassigns every chat session owned by the anonymous
user and touches the anonymous user's `updated_at`.  The transaction is
atomic: `txFails = true` models a failure at any point inside it, after
which the rollback leaves the state untouched. -/
def migrateAnonymousUserToAuthenticated (s : DBState)
    (anonymousUserId authenticatedUserId : Nat) (txFails : Bool) : DBState :=
  if txFails then s
  else
    { s with
      chat_sessions := s.chat_sessions.map fun cs =>
        if cs.user_id = anonymousUserId then { cs with user_id := authenticatedUserId } else cs
      users := s.users.map fun u =>
        if u.id = anonymousUserId then { u with updated_at := s.now } else u
      now := s.now + 1 }

/-! ### The chat route (`chat.$sessionId.tsx`, latest revision) -/

/-- Outcome of `chatCompletionApiV1ChatPost`: `Except.error` is a rejected
promise; a fulfilled call carries `result.value.data`, which may itself be
missing. -/
structure ChatResponse where
  response : String
  reasoning : Option String
  contexts : List String
deriving DecidableEq, Repr

/-- Outcome payload of `generateChatTitleApiV1GenerateTitlePost`. -/
structure TitleResponse where
  title : String
deriving DecidableEq, Repr

/-- The settled outcomes of the two upstream AI calls of one turn. -/
structure TurnUpstream where
  chat : Except String (Option ChatResponse)
  title : Except String (Option TitleResponse)

/-- `JSON.stringify` of the retrieval-source array (each element already
rendered); only injectivity on the array matters to the claims. -/
def jsonStringify (contexts : List String) : String :=
  "[" ++ String.intercalate "," contexts ++ "]"

/-- The fixed fallback assistant text written by the catch block. -/
def fallbackContent : String :=
  "I\x27m sorry, I\x27m having trouble processing your request right now. Please try again later."

/-- Models JS `!message.trim()`: the text contains no non-whitespace
character. -/
def isBlank (message : String) : Bool :=
  message.data.all Char.isWhitespace

/-- True for a rejected settled promise. -/
def isRejected {α : Type} : Except String α → Bool
  | .error _ => true
  | .ok _ => false

/-- The catch block of the action: persist the fixed fallback assistant
message, then update the session timestamp. -/
def aiFallback (s : DBState) (actualSessionId : Nat) : DBState :=
  let s1 := (createMessage s actualSessionId fallbackContent Role.assistant none none).1
  updateChatSessionTimestamp s1 actualSessionId

/-- The `try`/`catch` around the joined upstream outcomes (action lines
120–190): rethrow a rejected completion; rethrow a rejected title call when
one was issued; reject a fulfilled completion with missing data; otherwise
persist the assistant message (content, reasoning, serialized non-empty
contexts), update the timestamp, and apply the title when present.  Every
throw lands in the catch block (`aiFallback`). -/
def sendMessageAI (s : DBState) (actualSessionId : Nat) (needsTitle : Bool)
    (up : TurnUpstream) : DBState :=
  match up.chat with
  | .error _ => aiFallback s actualSessionId
  | .ok chatData =>
    if needsTitle && isRejected up.title then aiFallback s actualSessionId
    else
      match chatData with
      | none => aiFallback s actualSessionId
      | some responseData =>
        let contextsJson : Option String :=
          if responseData.contexts.length > 0 then some (jsonStringify responseData.contexts)
          else none
        let s1 := (createMessage s actualSessionId responseData.response Role.assistant
          responseData.reasoning contextsJson).1
        let s2 := updateChatSessionTimestamp s1 actualSessionId
        let titleData : Option TitleResponse :=
          if needsTitle then
            match up.title with
            | .ok d => d
            | .error _ => none
          else none
        match titleData with
        | some td => updateChatSessionTitle s2 actualSessionId td.title
        | none => s2

/-- The `:sessionId` route parameter: the special string `"new"` or an id. -/
inductive SessionParam
  | new
  | existing (id : Nat)
deriving DecidableEq, Repr

/-- The form `intent` field. -/
inductive Intent
  | sendMessage (message : String)
  | newChat
  | invalid
deriving Repr

/-- What the action returns: a data error, a thrown 404 response, or a
redirect to the session. -/
inductive ActionResult
  | errorResult (message : String)
  | notFound
  | redirectTo (sessionId : Nat)
deriving DecidableEq, Repr

/-- Action lines 82–94: create a session for the `"new"` parameter, else
look the session up (scoped to the resolved user) and 404 when absent. -/
def resolveSessionParam (s : DBState) (userId : Nat) (param : SessionParam) :
    Option (DBState × ChatSession) :=
  match param with
  | .new => some (createChatSession s userId none)
  | .existing sid =>
    match getChatSession s sid userId with
    | some cs => some (s, cs)
    | none => none

/-- The route `action`: resolve the session parameter, dispatch on the
intent; for `send-message` reject blank text, persist the user message,
bump the timestamp, determine `needsTitle` from the session row read
above, run the joined AI calls (`sendMessageAI`), and redirect.  The
trailing conversation-history read only feeds the upstream request, which
is abstracted into `up`. -/
def action (s : DBState) (userId : Nat) (param : SessionParam) (intent : Intent)
    (up : TurnUpstream) : DBState × ActionResult :=
  match resolveSessionParam s userId param with
  | none => (s, ActionResult.notFound)
  | some (s0, chatSession) =>
    match intent with
    | .sendMessage message =>
      if isBlank message then (s0, ActionResult.errorResult "Message cannot be empty")
      else
        let s1 := (createMessage s0 chatSession.id message Role.user none none).1
        let s2 := updateChatSessionTimestamp s1 chatSession.id
        let needsTitle := titleFalsy chatSession.title
        let s3 := sendMessageAI s2 chatSession.id needsTitle up
        (s3, ActionResult.redirectTo chatSession.id)
    | .newChat =>
      let created := createChatSession s0 userId none
      (created.1, ActionResult.redirectTo created.2.id)
    | .invalid => (s0, ActionResult.errorResult "Invalid intent")

/-- The loader's page fetch (lines 52–59): the page plus
`hasMore = messages.length === LIMIT`, for a general limit. -/
def pageFetch (msgs : List Message) (chatSessionId : Nat)
    (beforeMessageId : Option Nat) (limit : Nat) : List Message × Bool :=
  let page := getChatMessages msgs chatSessionId beforeMessageId limit
  (page, page.length == limit)

/-- The page size used by the loader. -/
def LIMIT : Nat := 12

/-- The backward infinite-scroll protocol of the `ChatSession` component:
start with no cursor; while `hasMore` and the page is non-empty, fetch
again with the oldest returned id (the head of the ascending page) as the
cursor.  `fuel` bounds the number of fetches; the returned flag is the
`hasMore` of the final fetch (`true` only if fuel ran out). -/
def scrollAll (msgs : List Message) (chatSessionId limit : Nat)
    (cursor : Option Nat) (fuel : Nat) : List Message × Bool :=
  match fuel with
  | 0 => ([], true)
  | Nat.succ fuel =>
    let page := getChatMessages msgs chatSessionId cursor limit
    if h : page.length = limit ∧ page ≠ [] then
      let older := scrollAll msgs chatSessionId limit (some (page.head h.2).id) fuel
      (page ++ older.1, older.2)
    else (page, page.length == limit)

/-- Number of assistant rows in a message table. -/
def assistantCount (msgs : List Message) : Nat :=
  (msgs.filter (fun m => m.role == Role.assistant)).length

/-- The id/title projection of the sessions table, used to state that a
turn leaves every title unchanged. -/
def sessionTitles (s : DBState) : List (Nat × Option String) :=
  s.chat_sessions.map (fun cs => (cs.id, cs.title))

/-! ### Concrete states used by counterexamples and witnesses -/

/-- A message with the given id in the given session. -/
def mkMsg (i sid : Nat) : Message :=
  { id := i
    chat_session_id := sid
    content := "m"
    role := Role.user
    reasoning := none
    context_used := none
    created_at := i }

/-- One anonymous user owning one untitled session. -/
def exampleState : DBState :=
  { users := [{ id := 10, session_id := some 99, workos_id := none, email := none,
                is_anonymous := true, updated_at := 0 }]
    chat_sessions := [{ id := 1, user_id := 10, title := none, updated_at := 3 }]
    messages := []
    nextId := 20
    now := 5 }

/-- Like `exampleState` but the session already carries a title. -/
def exampleTitledState : DBState :=
  { users := [{ id := 10, session_id := some 99, workos_id := none, email := none,
                is_anonymous := true, updated_at := 0 }]
    chat_sessions := [{ id := 1, user_id := 10, title := some "First", updated_at := 3 }]
    messages := []
    nextId := 20
    now := 5 }

/-- Both upstream calls succeed (the spec's concrete balance scenario). -/
def exampleUpstreamOk : TurnUpstream :=
  { chat := Except.ok (some { response := "Your balance is $42", reasoning := none, contexts := [] })
    title := Except.ok (some { title := "Balance Inquiry" }) }

/-- The completion call is rejected. -/
def exampleUpstreamChatFail : TurnUpstream :=
  { chat := Except.error "upstream timeout"
    title := Except.ok (some { title := "Balance Inquiry" }) }

/-- The completion call succeeds but the title call is rejected. -/
def exampleUpstreamTitleFail : TurnUpstream :=
  { chat := Except.ok (some { response := "Your balance is $42", reasoning := none, contexts := [] })
    title := Except.error "title timeout" }

/-- A small message table: session 1 holds ids 1, 2, 4, 5, 7; session 2
holds id 3. -/
def exampleMessages : List Message :=
  [mkMsg 1 1, mkMsg 2 1, mkMsg 3 2, mkMsg 4 1, mkMsg 5 1, mkMsg 7 1]

/-! ## Identity migration (claims C5 and C6) -/

/-- C5: identity migration is atomic — with the transaction committed,
every chat session owned by the anonymous user is reassigned to the
authenticated user (other sessions are untouched and, when the two ids
differ, no session owned by the anonymous user remains), and the anonymous
user's row gets its `updated_at` bumped to the migration time; with the
transaction failed at any point, the state is exactly unchanged. -/
theorem migration_all_or_nothing (s : DBState) (anon auth : Nat) (txFails : Bool) :
    (txFails = true → migrateAnonymousUserToAuthenticated s anon auth txFails = s) ∧
    (txFails = false →
      (∀ cs ∈ s.chat_sessions, cs.user_id = anon →
        { cs with user_id := auth }
          ∈ (migrateAnonymousUserToAuthenticated s anon auth txFails).chat_sessions) ∧
      (∀ cs ∈ s.chat_sessions, cs.user_id ≠ anon →
        cs ∈ (migrateAnonymousUserToAuthenticated s anon auth txFails).chat_sessions) ∧
      (anon ≠ auth →
        ∀ cs ∈ (migrateAnonymousUserToAuthenticated s anon auth txFails).chat_sessions,
          cs.user_id ≠ anon) ∧
      (∀ u ∈ s.users, u.id = anon →
        { u with updated_at := s.now }
          ∈ (migrateAnonymousUserToAuthenticated s anon auth txFails).users)) := by
  constructor
  · intro h
    simp [migrateAnonymousUserToAuthenticated, h]
  · intro h
    refine ⟨?_, ?_, ?_, ?_⟩
    · intro cs hcs hanon
      have hmem := List.mem_map_of_mem
        (fun c => if c.user_id = anon then { c with user_id := auth } else c) hcs
      simpa [migrateAnonymousUserToAuthenticated, h, hanon] using hmem
    · intro cs hcs hanon
      have hmem := List.mem_map_of_mem
        (fun c => if c.user_id = anon then { c with user_id := auth } else c) hcs
      simpa [migrateAnonymousUserToAuthenticated, h, hanon] using hmem
    · intro hne cs hcs
      simp only [migrateAnonymousUserToAuthenticated, h, if_false, Bool.false_eq_true] at hcs
      obtain ⟨c, hc, rfl⟩ := List.mem_map.mp hcs
      by_cases hcu : c.user_id = anon
      · simpa [hcu] using Ne.symm hne
      · simp only [if_neg hcu]
        exact hcu
    · intro u hu hanon
      have hmem := List.mem_map_of_mem
        (fun v => if v.id = anon then { v with updated_at := s.now } else v) hu
      simpa [migrateAnonymousUserToAuthenticated, h, hanon] using hmem

/-- Rollback and commit of migration, both observed at a concrete state:
the single session owned by user 10 moves to user 77 on commit, and a
failed transaction leaves the state identical. -/
theorem migration_all_or_nothing_witness :
    ({ id := 1, user_id := 77, title := none, updated_at := 3 : ChatSession }
        ∈ (migrateAnonymousUserToAuthenticated exampleState 10 77 false).chat_sessions) ∧
    migrateAnonymousUserToAuthenticated exampleState 10 77 true = exampleState := by
  constructor
  · exact ((migration_all_or_nothing exampleState 10 77 false).2 rfl).1
      { id := 1, user_id := 10, title := none, updated_at := 3 } (by decide) rfl
  · exact (migration_all_or_nothing exampleState 10 77 true).1 rfl

theorem find_reassigned (l : List ChatSession) (sid anon auth : Nat) (cs : ChatSession)
    (hnodup : (l.map (fun c => c.id)).Nodup)
    (h : l.find? (fun c => c.id == sid && c.user_id == anon) = some cs) :
    (l.map (fun c => if c.user_id = anon then { c with user_id := auth } else c)).find?
        (fun c => c.id == sid && c.user_id == auth) = some { cs with user_id := auth } := by
  induction l with
  | nil => simp at h
  | cons e rest ih =>
    simp only [List.map_cons, List.nodup_cons] at hnodup ⊢
    by_cases he : (e.id == sid && e.user_id == anon) = true
    · rw [List.find?_cons_of_pos rest he] at h
      obtain rfl : e = cs := by simpa using h
      simp only [beq_iff_eq, Bool.and_eq_true] at he
      rw [if_pos he.2]
      apply List.find?_cons_of_pos
      simp [he.1]
    · rw [List.find?_cons_of_neg rest (by simpa using he)] at h
      have hcsmem := List.mem_of_find?_eq_some h
      have hcsid : cs.id = sid := by
        have := List.find?_some h
        simp only [beq_iff_eq, Bool.and_eq_true] at this
        exact this.1
      have hid : e.id ≠ sid := by
        intro hcontra
        exact hnodup.1 (by
          rw [hcontra, ← hcsid]
          exact List.mem_map_of_mem (fun c => c.id) hcsmem)
      rw [List.find?_cons_of_neg]
      · exact ih hnodup.2 h
      · by_cases h' : e.user_id = anon <;> simp [h', hid]

/-- C6: migration writes only session ownership and the anonymous user's
`updated_at`: the message table is exactly unchanged, every history page is
unchanged, and a session that the anonymous user owned is found under the
authenticated identity afterwards with everything but its owner intact. -/
theorem migration_preserves_history (s : DBState) (anon auth : Nat)
    (hnodup : (s.chat_sessions.map (fun c => c.id)).Nodup) :
    (migrateAnonymousUserToAuthenticated s anon auth false).messages = s.messages ∧
    (∀ sid before limit,
      getChatMessages (migrateAnonymousUserToAuthenticated s anon auth false).messages
          sid before limit
        = getChatMessages s.messages sid before limit) ∧
    (∀ sid cs, getChatSession s sid anon = some cs →
      getChatSession (migrateAnonymousUserToAuthenticated s anon auth false) sid auth
        = some { cs with user_id := auth }) := by
  refine ⟨?_, ?_, ?_⟩
  · simp [migrateAnonymousUserToAuthenticated]
  · intro sid before limit
    simp [migrateAnonymousUserToAuthenticated]
  · intro sid cs h
    have := find_reassigned s.chat_sessions sid anon auth cs hnodup h
    simpa [getChatSession, migrateAnonymousUserToAuthenticated] using this

/-- History of the migrated session 1 of `exampleState`, read back under
the authenticated identity 77, with the message table untouched. -/
theorem migration_preserves_history_witness :
    (migrateAnonymousUserToAuthenticated exampleState 10 77 false).messages
        = exampleState.messages ∧
    getChatSession (migrateAnonymousUserToAuthenticated exampleState 10 77 false) 1 77
        = some { id := 1, user_id := 77, title := none, updated_at := 3 } := by
  have h := migration_preserves_history exampleState 10 77 (by decide)
  exact ⟨h.1, h.2.2 1 { id := 1, user_id := 10, title := none, updated_at := 3 } (by decide)⟩

/-! ## Authenticated identity lookup (claim C8) -/

/-- C8: `getOrCreateWorkOSUser` keys on the external identity id: when a
(unique) user row with that `workos_id` exists it is returned with the
state unchanged — no row is created — and when none exists a fresh row
carrying that `workos_id` is inserted. -/
theorem getOrCreateWorkOSUser_by_external_id (s : DBState) (w e : String) :
    (∀ u, u ∈ s.users → u.workos_id = some w →
      (∀ v ∈ s.users, v.workos_id = some w → v = u) →
      getOrCreateWorkOSUser s w e = (s, u)) ∧
    ((∀ v ∈ s.users, v.workos_id ≠ some w) →
      (getOrCreateWorkOSUser s w e).1.users
          = s.users ++ [(getOrCreateWorkOSUser s w e).2] ∧
      (getOrCreateWorkOSUser s w e).2.workos_id = some w ∧
      (getOrCreateWorkOSUser s w e).2.is_anonymous = false) := by
  constructor
  · intro u hu hw huniq
    have hfind : getUserByWorkOSId s w = some u := by
      unfold getUserByWorkOSId
      cases hcase : s.users.find? (fun v => v.workos_id == some w) with
      | none =>
        exfalso
        have := List.find?_eq_none.mp hcase u hu
        simp [hw] at this
      | some v =>
        have hv := List.find?_some hcase
        have hvmem := List.mem_of_find?_eq_some hcase
        simp only [beq_iff_eq] at hv
        rw [huniq v hvmem hv]
    simp [getOrCreateWorkOSUser, hfind]
  · intro hnone
    have hfind : getUserByWorkOSId s w = none := by
      apply List.find?_eq_none.mpr
      intro v hv
      simp [hnone v hv]
    simp [getOrCreateWorkOSUser, hfind]

/-- Both halves of the external-id lookup at concrete states: an existing
workos user is returned unchanged, and an unknown id inserts a row. -/
theorem getOrCreateWorkOSUser_by_external_id_witness :
    getOrCreateWorkOSUser
        { users := [{ id := 3, session_id := none, workos_id := some "wos_1",
                      email := some "a@b.c", is_anonymous := false, updated_at := 0 }]
          chat_sessions := [], messages := [], nextId := 4, now := 9 } "wos_1" "a@b.c"
      = ({ users := [{ id := 3, session_id := none, workos_id := some "wos_1",
                       email := some "a@b.c", is_anonymous := false, updated_at := 0 }]
           chat_sessions := [], messages := [], nextId := 4, now := 9 },
         { id := 3, session_id := none, workos_id := some "wos_1",
           email := some "a@b.c", is_anonymous := false, updated_at := 0 }) ∧
    (getOrCreateWorkOSUser exampleState "wos_9" "x@y.z").1.users
      = exampleState.users ++ [(getOrCreateWorkOSUser exampleState "wos_9" "x@y.z").2] := by
  constructor
  · exact (getOrCreateWorkOSUser_by_external_id _ "wos_1" "a@b.c").1
      { id := 3, session_id := none, workos_id := some "wos_1",
        email := some "a@b.c", is_anonymous := false, updated_at := 0 }
      (by decide) rfl (by decide)
  · exact ((getOrCreateWorkOSUser_by_external_id exampleState "wos_9" "x@y.z").2
      (by decide)).1

/-! ## Session resolution (claim C7) -/

/-- C7 counterexample: with a cookie carrying session token 5 and user id 1
that resolve to no user row, `requireSession` does not fail — it fabricates
a fresh anonymous identity (one new user row, anonymous result). -/
theorem requireSession_fabricates_counterexample :
    ((requireSession exampleState { sessionId := some 5, userId := some 1 }).1.users.length
        = exampleState.users.length + 1) ∧
    (requireSession exampleState { sessionId := some 5, userId := some 1 }).2.user.is_anonymous
        = true ∧
    (requireSession exampleState { sessionId := some 5, userId := some 1 }).2.isAuthenticated
        = false := by decide

/-- C7 amended: when the cookie carries both a session token and a user id
but the token resolves to no user row, `requireSession` silently creates a
fresh anonymous identity — it appends one new anonymous user carrying a
fresh token and rewrites the cookie to the new identity — instead of
failing with a session-invalid error. -/
theorem requireSession_creates_fresh_identity (s : DBState) (c : Cookie) (t u : Nat)
    (ht : c.sessionId = some t) (hu : c.userId = some u)
    (hnone : ∀ v ∈ s.users, v.session_id ≠ some t) :
    (requireSession s c).1.users = s.users ++ [(requireSession s c).2.user] ∧
    (requireSession s c).2.user.is_anonymous = true ∧
    (requireSession s c).2.user.session_id = some s.nextId ∧
    (requireSession s c).2.isAuthenticated = false ∧
    (requireSession s c).2.cookie
      = { sessionId := some s.nextId, userId := some (s.nextId + 1) } := by
  have hfind : getUserBySessionId s t = none := by
    apply List.find?_eq_none.mpr
    intro v hv
    simp [hnone v hv]
  obtain ⟨csid, cuid⟩ := c
  simp only at ht hu
  subst ht
  subst hu
  simp [requireSession, hfind, createNewAnonymousSession]

/-- The fabricated identity observed concretely: token 5 / user 1 resolve
to nothing in `exampleState`, and resolution returns a brand-new anonymous
user. -/
theorem requireSession_creates_fresh_identity_witness :
    (requireSession exampleState { sessionId := some 5, userId := some 1 }).1.users
      = exampleState.users
        ++ [(requireSession exampleState { sessionId := some 5, userId := some 1 }).2.user] ∧
    (requireSession exampleState { sessionId := some 5, userId := some 1 }).2.user.is_anonymous
      = true :=
  ⟨(requireSession_creates_fresh_identity exampleState
      { sessionId := some 5, userId := some 1 } 5 1 rfl rfl (by decide)).1,
   (requireSession_creates_fresh_identity exampleState
      { sessionId := some 5, userId := some 1 } 5 1 rfl rfl (by decide)).2.1⟩

/-! ## Title write semantics (claim C9) -/

/-- C9 counterexample: `updateChatSessionTitle` has no still-null guard —
applied to a session whose title is already `"First"`, the write takes
effect and replaces it. -/
theorem updateChatSessionTitle_overwrites :
    exampleTitledState.chat_sessions.map (fun cs => cs.title) = [some "First"] ∧
    (updateChatSessionTitle exampleTitledState 1 "Second").chat_sessions.map (fun cs => cs.title)
      = [some "Second"] := by decide

theorem sessionTitles_updateTimestamp (s : DBState) (sid : Nat) :
    sessionTitles (updateChatSessionTimestamp s sid) = sessionTitles s := by
  simp only [sessionTitles, updateChatSessionTimestamp, List.map_map]
  exact congrArg (fun f => List.map f s.chat_sessions)
    (funext fun cs => by by_cases h : cs.id = sid <;> simp [h, Function.comp])

theorem sessionTitles_createMessage (s : DBState) (cid : Nat) (content : String)
    (role : Role) (reasoning contextUsed : Option String) :
    sessionTitles (createMessage s cid content role reasoning contextUsed).1
      = sessionTitles s := rfl

theorem sessionTitles_aiFallback (s : DBState) (sid : Nat) :
    sessionTitles (aiFallback s sid) = sessionTitles s := by
  unfold aiFallback
  rw [sessionTitles_updateTimestamp, sessionTitles_createMessage]

theorem sendMessageAI_titles_of_not_needed (s : DBState) (sid : Nat) (up : TurnUpstream) :
    sessionTitles (sendMessageAI s sid false up) = sessionTitles s := by
  obtain ⟨chat, title⟩ := up
  cases chat with
  | error e => exact sessionTitles_aiFallback s sid
  | ok chatData =>
    cases chatData with
    | none => simpa [sendMessageAI] using sessionTitles_aiFallback s sid
    | some responseData =>
      simp only [sendMessageAI, Bool.false_and, Bool.false_eq_true, if_false]
      rw [sessionTitles_updateTimestamp, sessionTitles_createMessage]

/-- C9 amended: the title write itself is unguarded (see
`updateChatSessionTitle_overwrites`), but within any single (non-overlapped)
turn the still-null check happens at read time: when the session's title is
a non-null, non-empty string when the action reads it, the whole turn
leaves every session's title unchanged, so sequential turns never overwrite
a non-empty title.  (JS falsiness makes an empty-string title count as
missing, and two overlapping turns both reading a null title can each
write, second winning.) -/
theorem nonblank_title_never_overwritten (s : DBState) (userId sid : Nat) (cs : ChatSession)
    (msg t : String) (up : TurnUpstream)
    (hres : getChatSession s sid userId = some cs)
    (ht : cs.title = some t) (hne : t ≠ "") :
    sessionTitles (action s userId (SessionParam.existing sid) (Intent.sendMessage msg) up).1
      = sessionTitles s := by
  simp only [action, resolveSessionParam, hres]
  by_cases hblank : isBlank msg = true
  · simp [hblank]
  · simp only [Bool.not_eq_true] at hblank
    simp only [hblank, Bool.false_eq_true, if_false]
    have hnt : titleFalsy cs.title = false := by
      rw [ht]
      simpa [titleFalsy] using hne
    rw [hnt, sendMessageAI_titles_of_not_needed, sessionTitles_updateTimestamp,
      sessionTitles_createMessage]

/-- A titled session going through a full successful turn keeps its title. -/
theorem nonblank_title_never_overwritten_witness :
    sessionTitles (action exampleTitledState 10 (SessionParam.existing 1)
        (Intent.sendMessage "hi") exampleUpstreamOk).1
      = sessionTitles exampleTitledState :=
  nonblank_title_never_overwritten exampleTitledState 10 1
    { id := 1, user_id := 10, title := some "First", updated_at := 3 } "hi" "First"
    exampleUpstreamOk (by decide) rfl (by decide)

/-! ## Blank-message validation (claim C10) -/

/-- C10 counterexample: a blank send-message request addressed to the
special `"new"` session id is rejected with the expected error, yet it does
write: an empty chat session row has already been created. -/
theorem blank_message_counterexample :
    (action exampleState 10 SessionParam.new (Intent.sendMessage "   ")
        exampleUpstreamOk).2
      = ActionResult.errorResult "Message cannot be empty" ∧
    (action exampleState 10 SessionParam.new (Intent.sendMessage "   ")
        exampleUpstreamOk).1.chat_sessions.length
      = exampleState.chat_sessions.length + 1 := by decide

/-- C10 amended: a blank (all-whitespace) message makes the action return
the `"Message cannot be empty"` error having written no message row and no
user row, and having touched no timestamp or title; for an existing target
session the state is exactly unchanged, while the `"new"` parameter has
already created one empty session row before the check. -/
theorem blank_message_no_turn_writes (s s0 : DBState) (cs : ChatSession) (userId : Nat)
    (param : SessionParam) (msg : String) (up : TurnUpstream)
    (hres : resolveSessionParam s userId param = some (s0, cs))
    (hblank : isBlank msg = true) :
    action s userId param (Intent.sendMessage msg) up
        = (s0, ActionResult.errorResult "Message cannot be empty") ∧
    s0.messages = s.messages ∧
    s0.users = s.users ∧
    (∀ sid, param = SessionParam.existing sid → s0 = s) ∧
    (param = SessionParam.new →
      s0.chat_sessions = s.chat_sessions
        ++ [{ id := s.nextId, user_id := userId, title := none, updated_at := s.now }]) := by
  have hcase : (∃ sid, param = SessionParam.existing sid ∧ s0 = s) ∨
      (param = SessionParam.new ∧ s0 = (createChatSession s userId none).1) := by
    cases param with
    | new =>
      right
      refine ⟨rfl, ?_⟩
      simp only [resolveSessionParam, Option.some.injEq] at hres
      exact (congrArg Prod.fst hres).symm
    | existing sid =>
      left
      refine ⟨sid, rfl, ?_⟩
      cases hg : getChatSession s sid userId with
      | none => simp [resolveSessionParam, hg] at hres
      | some c =>
        simp only [resolveSessionParam, hg, Option.some.injEq] at hres
        exact (congrArg Prod.fst hres).symm
  refine ⟨?_, ?_, ?_, ?_, ?_⟩
  · unfold action
    rw [hres]
    simp [hblank]
  · rcases hcase with ⟨sid, hp, rfl⟩ | ⟨hp, hs0⟩
    · rfl
    · rw [hs0]
      rfl
  · rcases hcase with ⟨sid, hp, rfl⟩ | ⟨hp, hs0⟩
    · rfl
    · rw [hs0]
      rfl
  · intro sid hp
    rcases hcase with ⟨sid', hp', rfl⟩ | ⟨hp', hs0⟩
    · rfl
    · rw [hp] at hp'
      cases hp'
  · intro hp
    rcases hcase with ⟨sid', hp', rfl⟩ | ⟨hp', hs0⟩
    · rw [hp] at hp'
      cases hp'
    · rw [hs0]
      simp [createChatSession, titleFalsy]

/-- The blank-message rejection observed on an existing session: error
returned and state exactly unchanged. -/
theorem blank_message_no_turn_writes_witness :
    action exampleState 10 (SessionParam.existing 1) (Intent.sendMessage "   ")
        exampleUpstreamOk
      = (exampleState, ActionResult.errorResult "Message cannot be empty") :=
  (blank_message_no_turn_writes exampleState exampleState
    { id := 1, user_id := 10, title := none, updated_at := 3 } 10
    (SessionParam.existing 1) "   " exampleUpstreamOk (by decide) (by decide)).1

/-! ## Title-call failure discards the completion (claim C2) -/

/-- C2: when the completion call succeeds but the title call is rejected,
the action rethrows the title rejection before persisting the assistant
message, so the catch block writes the fixed fallback text instead of the
completion's content (which is discarded); the title is left null.  This
contradicts the intended per-branch failure isolation of the
`Promise.allSettled` join. -/
theorem completion_discarded_on_title_failure :
    ((action exampleState 10 (SessionParam.existing 1)
        (Intent.sendMessage "What is my balance?") exampleUpstreamTitleFail).1.messages.map
          (fun x => (x.content, x.role)))
      = [("What is my balance?", Role.user), (fallbackContent, Role.assistant)] ∧
    ((action exampleState 10 (SessionParam.existing 1)
        (Intent.sendMessage "What is my balance?") exampleUpstreamTitleFail).1.messages.map
          (fun x => x.content)).contains "Your balance is $42" = false ∧
    ((action exampleState 10 (SessionParam.existing 1)
        (Intent.sendMessage "What is my balance?") exampleUpstreamTitleFail).1.chat_sessions.map
          (fun cs => cs.title))
      = [none] := by decide

/-! ## Turn orchestration (claim C1) -/

theorem sendMessageAI_appends_one_assistant (s : DBState) (sid : Nat) (nt : Bool)
    (up : TurnUpstream) :
    ∃ m, (sendMessageAI s sid nt up).messages = s.messages ++ [m]
      ∧ m.role = Role.assistant := by
  obtain ⟨chat, title⟩ := up
  cases chat with
  | error e => exact ⟨_, rfl, rfl⟩
  | ok chatData =>
    cases hnt : nt with
    | false =>
      cases chatData with
      | none => exact ⟨_, rfl, rfl⟩
      | some rd => exact ⟨_, rfl, rfl⟩
    | true =>
      cases title with
      | error te => exact ⟨_, rfl, rfl⟩
      | ok td =>
        cases chatData with
        | none => exact ⟨_, rfl, rfl⟩
        | some rd =>
          cases td with
          | none => exact ⟨_, rfl, rfl⟩
          | some t0 => exact ⟨_, rfl, rfl⟩

theorem assistantCount_append (l : List Message) (m : Message) :
    assistantCount (l ++ [m])
      = assistantCount l + (if m.role == Role.assistant then 1 else 0) := by
  by_cases h : (m.role == Role.assistant) = true <;>
    simp [assistantCount, List.filter_append, h]

theorem bump_bump (l : List ChatSession) (sid t1 t2 : Nat) :
    (l.map (fun c => if c.id = sid then { c with updated_at := t1 } else c)).map
        (fun c => if c.id = sid then { c with updated_at := t2 } else c)
      = l.map (fun c => if c.id = sid then { c with updated_at := t2 } else c) := by
  rw [List.map_map]
  exact congrArg (fun f => List.map f l)
    (funext fun c => by by_cases h : c.id = sid <;> simp [h, Function.comp])

/-- C1: a send-message turn that reaches the AI phase always redirects
(no fault escapes), always appends exactly one assistant message whatever
the two upstream outcomes are, and when the completion call is rejected the
write set is exactly the user message plus the fixed fallback assistant
message together with a bump of the session's `updated_at`; in particular
no title is touched. -/
theorem turn_writes_exactly_one_assistant (s s0 : DBState) (cs : ChatSession) (userId : Nat)
    (param : SessionParam) (msg : String) (up : TurnUpstream)
    (hres : resolveSessionParam s userId param = some (s0, cs))
    (hmsg : isBlank msg = false) :
    (action s userId param (Intent.sendMessage msg) up).2 = ActionResult.redirectTo cs.id ∧
    assistantCount (action s userId param (Intent.sendMessage msg) up).1.messages
      = assistantCount s0.messages + 1 ∧
    (∀ err, up.chat = Except.error err →
      (action s userId param (Intent.sendMessage msg) up).1.messages
        = s0.messages ++
          [{ id := s0.nextId, chat_session_id := cs.id, content := msg, role := Role.user,
             reasoning := none, context_used := none, created_at := s0.now },
           { id := s0.nextId + 1, chat_session_id := cs.id, content := fallbackContent,
             role := Role.assistant, reasoning := none, context_used := none,
             created_at := s0.now + 2 }] ∧
      (action s userId param (Intent.sendMessage msg) up).1.chat_sessions
        = s0.chat_sessions.map (fun c =>
            if c.id = cs.id then { c with updated_at := s0.now + 3 } else c)) := by
  have haction : action s userId param (Intent.sendMessage msg) up
      = (sendMessageAI (updateChatSessionTimestamp
            (createMessage s0 cs.id msg Role.user none none).1 cs.id) cs.id
          (titleFalsy cs.title) up,
         ActionResult.redirectTo cs.id) := by
    simp only [action, hres]
    rw [if_neg (by simp [hmsg])]
  refine ⟨by rw [haction], ?_, ?_⟩
  · rw [haction]
    obtain ⟨m, hm, hrole⟩ := sendMessageAI_appends_one_assistant
      (updateChatSessionTimestamp (createMessage s0 cs.id msg Role.user none none).1 cs.id)
      cs.id (titleFalsy cs.title) up
    rw [hm]
    show assistantCount ((s0.messages ++
        [{ id := s0.nextId, chat_session_id := cs.id, content := msg, role := Role.user,
           reasoning := none, context_used := none, created_at := s0.now }]) ++ [m])
      = assistantCount s0.messages + 1
    rw [assistantCount_append, assistantCount_append]
    simp [hrole]
  · intro err herr
    obtain ⟨chat, title⟩ := up
    simp only at herr
    subst herr
    rw [haction]
    constructor
    · show ((s0.messages ++
          [{ id := s0.nextId, chat_session_id := cs.id, content := msg, role := Role.user,
             reasoning := none, context_used := none, created_at := s0.now }]) ++
          [{ id := s0.nextId + 1, chat_session_id := cs.id, content := fallbackContent,
             role := Role.assistant, reasoning := none, context_used := none,
             created_at := s0.now + 2 }]) = _
      rw [List.append_assoc]
      rfl
    · show (s0.chat_sessions.map (fun c =>
            if c.id = cs.id then { c with updated_at := s0.now + 1 } else c)).map
          (fun c => if c.id = cs.id then { c with updated_at := s0.now + 3 } else c)
        = _
      exact bump_bump s0.chat_sessions cs.id (s0.now + 1) (s0.now + 3)

/-- The failed-completion turn observed concretely on `exampleState`:
redirect, one assistant row added, and the exact fallback write set. -/
theorem turn_writes_exactly_one_assistant_witness :
    (action exampleState 10 (SessionParam.existing 1) (Intent.sendMessage "hi")
        exampleUpstreamChatFail).2 = ActionResult.redirectTo 1 ∧
    assistantCount (action exampleState 10 (SessionParam.existing 1) (Intent.sendMessage "hi")
        exampleUpstreamChatFail).1.messages
      = assistantCount exampleState.messages + 1 ∧
    (action exampleState 10 (SessionParam.existing 1) (Intent.sendMessage "hi")
        exampleUpstreamChatFail).1.messages
      = exampleState.messages ++
        [{ id := 20, chat_session_id := 1, content := "hi", role := Role.user,
           reasoning := none, context_used := none, created_at := 5 },
         { id := 21, chat_session_id := 1, content := fallbackContent,
           role := Role.assistant, reasoning := none, context_used := none,
           created_at := 7 }] := by
  have h := turn_writes_exactly_one_assistant exampleState exampleState
    { id := 1, user_id := 10, title := none, updated_at := 3 } 10 (SessionParam.existing 1)
    "hi" exampleUpstreamChatFail (by decide) (by decide)
  exact ⟨h.1, h.2.1, (h.2.2 "upstream timeout" rfl).1⟩

/-! ## Keyset pagination (claims C3 and C4) -/

theorem orderedInsert_all_larger (a : Message) (l : List Message)
    (h : ∀ x ∈ l, a.id < x.id) :
    l.orderedInsert (fun p q => q.id ≤ p.id) a = l ++ [a] := by
  induction l with
  | nil => rfl
  | cons x xs ih =>
    rw [List.orderedInsert, if_neg (by
      have := h x (List.mem_cons_self x xs)
      omega)]
    rw [ih (fun y hy => h y (List.mem_cons_of_mem x hy))]
    rfl

theorem insertionSort_ascending (l : List Message)
    (h : l.Pairwise (fun a b : Message => a.id < b.id)) :
    l.insertionSort (fun p q => q.id ≤ p.id) = l.reverse := by
  induction l with
  | nil => rfl
  | cons a xs ih =>
    obtain ⟨ha, hxs⟩ := List.pairwise_cons.mp h
    rw [List.insertionSort, ih hxs,
      orderedInsert_all_larger a xs.reverse (fun x hx => ha x (List.mem_reverse.mp hx)),
      List.reverse_cons a xs]

theorem cursorFilter_pairwise (l : List Message) (before : Option Nat)
    (h : l.Pairwise (fun a b : Message => a.id < b.id)) :
    (cursorFilter l before).Pairwise (fun a b : Message => a.id < b.id) := by
  cases before with
  | none => exact h
  | some c => exact h.filter _

theorem sessionMessages_mem (msgs : List Message) (sid : Nat) (m : Message)
    (h : m ∈ sessionMessages msgs sid) : m ∈ msgs ∧ m.chat_session_id = sid := by
  simpa [sessionMessages] using List.mem_filter.mp h

theorem cursorFilter_mem (l : List Message) (c : Nat) (m : Message)
    (h : m ∈ cursorFilter l (some c)) : m ∈ l ∧ m.id < c := by
  simpa [cursorFilter] using List.mem_filter.mp h

/-- The central page-shape fact: under globally ascending ids, a fetched
page is exactly the length-`n` suffix of the ascending filtered log. -/
theorem getChatMessages_eq_drop (msgs : List Message) (sid : Nat) (before : Option Nat)
    (n : Nat) (H : msgs.Pairwise (fun a b : Message => a.id < b.id)) :
    getChatMessages msgs sid before n
      = (cursorFilter (sessionMessages msgs sid) before).drop
          ((cursorFilter (sessionMessages msgs sid) before).length - n) := by
  have hF := cursorFilter_pairwise (sessionMessages msgs sid) before (H.filter _)
  show (((cursorFilter (sessionMessages msgs sid) before).insertionSort
      (fun a b => b.id ≤ a.id)).take n).reverse = _
  rw [insertionSort_ascending _ hF, List.take_reverse, List.reverse_reverse]

/-- C3: a page fetched with cursor `c` holds only messages of the session
with id strictly below `c`, in strictly ascending id order, and its
`hasMore` flag is true exactly when the page is full; a cursorless page is
ascending, holds only the session's messages, has length `min n count`, and
is the newest slice: every session message left out is older than every
message returned. -/
theorem page_cursor_and_newest_spec (msgs : List Message) (sid c n : Nat)
    (H : msgs.Pairwise (fun a b : Message => a.id < b.id)) :
    (∀ m ∈ getChatMessages msgs sid (some c) n, m.chat_session_id = sid ∧ m.id < c) ∧
    (getChatMessages msgs sid (some c) n).Pairwise (fun a b : Message => a.id < b.id) ∧
    ((pageFetch msgs sid (some c) n).2 = true
      ↔ (getChatMessages msgs sid (some c) n).length = n) ∧
    (∀ m ∈ getChatMessages msgs sid none n, m.chat_session_id = sid) ∧
    (getChatMessages msgs sid none n).Pairwise (fun a b : Message => a.id < b.id) ∧
    (getChatMessages msgs sid none n).length = min n (sessionMessages msgs sid).length ∧
    (∀ m ∈ sessionMessages msgs sid, m ∉ getChatMessages msgs sid none n →
      ∀ p ∈ getChatMessages msgs sid none n, m.id < p.id) := by
  have hA : (sessionMessages msgs sid).Pairwise (fun a b : Message => a.id < b.id) :=
    H.filter _
  have hdc := getChatMessages_eq_drop msgs sid (some c) n H
  have hdn := getChatMessages_eq_drop msgs sid none n H
  refine ⟨?_, ?_, ?_, ?_, ?_, ?_, ?_⟩
  · intro m hm
    rw [hdc] at hm
    have hmF := List.drop_subset _ _ hm
    obtain ⟨hmA, hmc⟩ := cursorFilter_mem _ c m hmF
    exact ⟨(sessionMessages_mem msgs sid m hmA).2, hmc⟩
  · rw [hdc]
    exact (cursorFilter_pairwise _ _ hA).sublist (List.drop_sublist _ _)
  · simp [pageFetch]
  · intro m hm
    rw [hdn] at hm
    exact (sessionMessages_mem msgs sid m (List.drop_subset _ _ hm)).2
  · rw [hdn]
    exact hA.sublist (List.drop_sublist _ _)
  · rw [hdn, List.length_drop]
    show (sessionMessages msgs sid).length
        - ((sessionMessages msgs sid).length - n) = _
    omega
  · intro m hmA hmnot p hp
    rw [hdn] at hmnot hp
    have hsplit := (List.take_append_drop
      ((sessionMessages msgs sid).length - n) (sessionMessages msgs sid)).symm
    have hApair2 := hA
    rw [hsplit] at hApair2 hmA
    have hcross := (List.pairwise_append.mp hApair2).2.2
    rcases List.mem_append.mp hmA with hmtake | hmdrop
    · exact hcross m hmtake p hp
    · exact absurd hmdrop hmnot

theorem filter_lt_getElem (l : List Message) (k : Nat) (hk : k < l.length)
    (h : l.Pairwise (fun a b : Message => a.id < b.id)) :
    l.filter (fun m => m.id < l[k].id) = l.take k := by
  induction l generalizing k with
  | nil => simp at hk
  | cons a xs ih =>
    obtain ⟨ha, hxs⟩ := List.pairwise_cons.mp h
    cases k with
    | zero =>
      simp only [List.getElem_cons_zero, List.take_zero]
      rw [List.filter_cons, if_neg (by simp)]
      apply List.filter_eq_nil_iff.mpr
      intro x hx
      have := ha x hx
      simp only [decide_eq_true_eq]
      omega
    | succ k =>
      have hk' : k < xs.length := by
        simpa [Nat.succ_lt_succ_iff] using hk
      simp only [List.getElem_cons_succ]
      rw [List.take_succ_cons, List.filter_cons, if_pos (by
        have := ha (xs[k]) (List.getElem_mem hk')
        simp only [decide_eq_true_eq]
        exact this)]
      rw [ih k hk' hxs]

theorem cursorFilter_below (A : List Message) (cursor : Option Nat) (p : Message)
    (hp : p ∈ cursorFilter A cursor) :
    cursorFilter A (some p.id) = (cursorFilter A cursor).filter (fun m => m.id < p.id) := by
  cases cursor with
  | none => rfl
  | some c =>
    have hpc : p.id < c := (cursorFilter_mem A c p hp).2
    show A.filter (fun m => m.id < p.id)
      = (A.filter (fun m => m.id < c)).filter (fun m => m.id < p.id)
    rw [List.filter_filter]
    apply List.filter_congr
    intro m hm
    by_cases h : m.id < p.id
    · have h2 : m.id < c := by omega
      simp [h, h2]
    · simp [h]

theorem scrollAll_spec (fuel : Nat) :
    ∀ (msgs : List Message) (sid n : Nat) (cursor : Option Nat) (R : List Message),
      msgs.Pairwise (fun a b : Message => a.id < b.id) → 0 < n →
      cursorFilter (sessionMessages msgs sid) cursor = R →
      R.length < fuel →
      List.Perm (scrollAll msgs sid n cursor fuel).1 R ∧
      (scrollAll msgs sid n cursor fuel).2 = false := by
  induction fuel with
  | zero =>
    intro msgs sid n cursor R H hn hRdef hlen
    omega
  | succ fuel ih =>
    intro msgs sid n cursor R H hn hRdef hlen
    have hA : (sessionMessages msgs sid).Pairwise (fun a b : Message => a.id < b.id) :=
      H.filter _
    have hR : R.Pairwise (fun a b : Message => a.id < b.id) := by
      rw [← hRdef]
      exact cursorFilter_pairwise _ _ hA
    have hpage : getChatMessages msgs sid cursor n = R.drop (R.length - n) := by
      rw [getChatMessages_eq_drop msgs sid cursor n H, hRdef]
    by_cases hfull : n ≤ R.length
    · -- a full page: recurse below the oldest returned id
      have hk : R.length - n < R.length := by omega
      have hconsform : getChatMessages msgs sid cursor n
          = R[R.length - n] :: R.drop (R.length - n + 1) :=
        hpage.trans (List.drop_eq_getElem_cons hk)
      have hcplen : (R[R.length - n] :: R.drop (R.length - n + 1)).length = n := by
        simp only [List.length_cons, List.length_drop]
        omega
      simp only [scrollAll, hconsform, List.head_cons]
      rw [dif_pos ⟨hcplen, List.cons_ne_nil _ _⟩]
      have hmemk : R[R.length - n] ∈ cursorFilter (sessionMessages msgs sid) cursor := by
        rw [hRdef]
        exact List.getElem_mem hk
      have hnewR : cursorFilter (sessionMessages msgs sid) (some (R[R.length - n]).id)
          = R.take (R.length - n) := by
        rw [cursorFilter_below _ _ _ hmemk, hRdef, filter_lt_getElem R _ hk hR]
      have hnewlen : (R.take (R.length - n)).length < fuel := by
        rw [List.length_take]
        omega
      obtain ⟨ihperm, ihflag⟩ := ih msgs sid n (some (R[R.length - n]).id)
        (R.take (R.length - n)) H hn hnewR hnewlen
      refine ⟨?_, by simpa using ihflag⟩
      have hstep : List.Perm
          ((R[R.length - n] :: R.drop (R.length - n + 1))
            ++ (scrollAll msgs sid n (some (R[R.length - n]).id) fuel).1)
          ((R[R.length - n] :: R.drop (R.length - n + 1)) ++ R.take (R.length - n)) :=
        ihperm.append_left _
      refine (hstep.trans ?_)
      have hdropform : R[R.length - n] :: R.drop (R.length - n + 1)
          = R.drop (R.length - n) := (List.drop_eq_getElem_cons hk).symm
      rw [hdropform]
      exact (List.perm_append_comm).trans
        (by rw [List.take_append_drop])
    · -- a short page: it is the whole remainder and the scroll stops
      have hpageR : getChatMessages msgs sid cursor n = R := by
        rw [hpage]
        have hzero : R.length - n = 0 := by omega
        rw [hzero, List.drop_zero]
      have hlenne : (getChatMessages msgs sid cursor n).length ≠ n := by
        rw [hpageR]
        omega
      simp only [scrollAll]
      rw [dif_neg (by
        intro hcon
        exact hlenne hcon.1)]
      refine ⟨by rw [hpageR], ?_⟩
      simpa using hlenne

/-- C4: backward infinite scroll — fetch with no cursor, then repeatedly
with the oldest id of the returned page while `hasMore` holds — visits
every message of the session exactly once (the concatenation of pages is a
permutation of the session's log), terminates within `|log| + 1` fetches,
and the final fetch reports `hasMore = false`. -/
theorem backward_scroll_visits_each_once (msgs : List Message) (sid n : Nat)
    (H : msgs.Pairwise (fun a b : Message => a.id < b.id)) (hn : 0 < n) :
    List.Perm (scrollAll msgs sid n none (msgs.length + 1)).1 (sessionMessages msgs sid) ∧
    (scrollAll msgs sid n none (msgs.length + 1)).2 = false := by
  refine scrollAll_spec (msgs.length + 1) msgs sid n none (sessionMessages msgs sid)
    H hn rfl ?_
  have := List.length_filter_le (fun m => m.chat_session_id == sid) msgs
  show (sessionMessages msgs sid).length < msgs.length + 1
  simp only [sessionMessages]
  omega

/-- The cursor page of `exampleMessages` below id 4, and the cursorless
page length, via the page specification at a concrete table. -/
theorem page_cursor_and_newest_spec_witness :
    (∀ m ∈ getChatMessages exampleMessages 1 (some 4) 2,
      m.chat_session_id = 1 ∧ m.id < 4) ∧
    (getChatMessages exampleMessages 1 none 2).length
      = min 2 (sessionMessages exampleMessages 1).length := by
  have h := page_cursor_and_newest_spec exampleMessages 1 4 2 (by decide)
  exact ⟨h.1, h.2.2.2.2.2.1⟩

/-- The backward scroll over `exampleMessages` for session 1 with page
size 2: all five session messages visited once, final `hasMore` false. -/
theorem backward_scroll_visits_each_once_witness :
    List.Perm (scrollAll exampleMessages 1 2 none (exampleMessages.length + 1)).1
      (sessionMessages exampleMessages 1) ∧
    (scrollAll exampleMessages 1 2 none (exampleMessages.length + 1)).2 = false :=
  backward_scroll_visits_each_once exampleMessages 1 2 (by decide) (by decide)

end ChatApp
